import Mathlib

/-!
Verification of the batch-API load-test workflow (`src/locust/locustfile.py`).

The file shallowly embeds the sequential workflow of `BatchWorkflow`
(upload → verify → create batch → poll → retrieve output → retrieve errors),
the shared-API-key bootstrap of `BatchUser.on_start`, and the threshold
check of the `on_test_stop` hook, and proves the spec's testable properties
about them.

Conventions: every HTTP request a step issues is recorded as one boolean
"mark" — `true` for `response.success()`, `false` for
`response.failure(...)` — so the number of marks is the number of requests
the step issued.  Response bodies are modelled as the record of JSON fields
the code reads via `.get(...)`; a body of `none` models a
`json.JSONDecodeError`.  The polling backoff interval is modelled in ℚ:
every value the Python float loop produces (`2 * 1.5^i` capped at `30`) is
exactly representable in binary floating point, so rational arithmetic is a
faithful model of the float arithmetic on this orbit.
-/

namespace BatchLoadTest

/-- Per-user workflow state: the four optional identifiers initialised to
`None` by `BatchWorkflow.on_start` (lines 32-35). -/
structure WorkflowState where
  file_id : Option String
  batch_id : Option String
  output_file_id : Option String
  error_file_id : Option String
deriving DecidableEq, Repr

/-- Python truthiness of the optional-string state fields, as used in guards
like `if not self.file_id`: `None` and the empty string are falsy. -/
def falsy : Option String → Bool
  | none => true
  | some s => s == ""

/-- An HTTP response as a step observes it: the numeric status code and an
optional parsed JSON body (`none` models a body on which `response.json()`
raises `json.JSONDecodeError`). -/
structure HttpResponse (α : Type) where
  http_status : Nat
  body : Option α
deriving DecidableEq, Repr

/-- JSON object carrying the one field read as `response_data.get('id')` /
`data.get('id')` by the upload and create-batch steps. -/
structure IdBody where
  id : Option String
deriving DecidableEq, Repr

/-- Poll-response JSON object: the fields `poll_batch_status` reads via
`data.get('status')`, `data.get('output_file_id')`,
`data.get('error_file_id')` (lines 183, 187, 188). -/
structure PollBody where
  status : Option String
  output_file_id : Option String
  error_file_id : Option String
deriving DecidableEq, Repr

/-- A response to one batch-status poll request. -/
abbrev PollResponse := HttpResponse PollBody

/-- Result of one ordinary workflow step: the updated per-user state and the
success/failure mark of every HTTP request the step issued, in order. -/
structure StepResult where
  st : WorkflowState
  marks : List Bool
deriving DecidableEq, Repr

/-- Step 1, `BatchWorkflow.upload_file` (lines 52-98): POST the fixture to
`/ai/v1/files`; on HTTP 200/201 parse the body and store `id` in `file_id`,
marking failure when the id is missing (falsy); otherwise mark failure. -/
def upload_file (st : WorkflowState) (resp : HttpResponse IdBody) : StepResult :=
  if resp.http_status ∈ [200, 201] then
    match resp.body with
    | some b =>
      let st' := { st with file_id := b.id }
      if falsy st'.file_id then ⟨st', [false]⟩ else ⟨st', [true]⟩
    | none => ⟨st, [false]⟩
  else ⟨st, [false]⟩

/-- Step 2, `BatchWorkflow.verify_upload` (lines 100-129): abort with no
request when `file_id` is falsy; otherwise GET either the metadata or the
content endpoint (chosen by `random.random() < 0.5`, modelled by `coin`) and
mark success exactly on HTTP 200. -/
def verify_upload (st : WorkflowState) (coin : Bool) (http_status : Nat) : StepResult :=
  if falsy st.file_id then ⟨st, []⟩
  else if coin then
    (if http_status = 200 then ⟨st, [true]⟩ else ⟨st, [false]⟩)
  else
    (if http_status = 200 then ⟨st, [true]⟩ else ⟨st, [false]⟩)

/-- Step 3, `BatchWorkflow.create_batch` (lines 131-162): abort with no
request when `file_id` is falsy; on HTTP 200/201 with a parseable body store
`data.get('id')` (possibly `None`) in `batch_id` and mark success
unconditionally; mark failure on parse error or non-success status. -/
def create_batch (st : WorkflowState) (resp : HttpResponse IdBody) : StepResult :=
  if falsy st.file_id then ⟨st, []⟩
  else if resp.http_status ∈ [200, 201] then
    match resp.body with
    | some b => ⟨{ st with batch_id := b.id }, [true]⟩
    | none => ⟨st, [false]⟩
  else ⟨st, [false]⟩

/-- Terminal batch statuses (line 185). -/
def terminalStatuses : List String := ["completed", "failed", "cancelled", "expired"]

/-- Non-terminal (still processing) batch statuses (line 191). -/
def nonTerminalStatuses : List String := ["in_progress", "validating", "finalizing"]

/-- Classification of one poll response by the branch `poll_batch_status`
takes on it (lines 180-202): `term b` — HTTP 200 and a terminal status
(stop, capture file ids from body `b`); `cont` — HTTP 200 and a non-terminal
status (mark success, sleep, poll again); `fail` — everything else: non-200
status, JSON decode error, or a missing/unrecognized status value (mark
failure and stop). -/
inductive PollClass where
  | term (b : PollBody)
  | cont
  | fail
deriving DecidableEq, Repr

/-- Compute the `PollClass` of a response, mirroring the nesting of the
conditionals in lines 180-202. -/
def classify (q : PollResponse) : PollClass :=
  if q.http_status = 200 then
    match q.body with
    | some b =>
      match b.status with
      | some s =>
        if s ∈ terminalStatuses then .term b
        else if s ∈ nonTerminalStatuses then .cont
        else .fail
      | none => .fail
    | none => .fail
  else .fail

/-- Outcome of the polling step: per-request marks, the sleep intervals
performed (one after each `cont` response), the final per-user state, and
whether the loop ran out of its attempt budget (the print-only path of
line 209). -/
structure PollResult where
  marks : List Bool
  sleeps : List ℚ
  st : WorkflowState
  budget_exhausted : Bool
deriving DecidableEq, Repr

/-- State update performed on a terminal poll response (lines 187-188): both
file ids are overwritten with whatever the body carries (possibly `None`). -/
def applyTerminal (st : WorkflowState) (b : PollBody) : WorkflowState :=
  { st with output_file_id := b.output_file_id, error_file_id := b.error_file_id }

/-- The polling loop of `poll_batch_status` (lines 174-206), by structural
recursion on the remaining attempt budget `fuel`; `i` is the index of the
next attempt and `r` the current `poll_interval`.  `resp i` is the server's
response to the i-th status request. -/
def pollLoop (resp : Nat → PollResponse) (st : WorkflowState) :
    Nat → Nat → ℚ → PollResult
  | 0, _, _ => ⟨[], [], st, true⟩
  | fuel+1, i, r =>
    match classify (resp i) with
    | .term b => ⟨[true], [], applyTerminal st b, false⟩
    | .cont =>
      let rest := pollLoop resp st fuel (i+1) (min (r * (3/2)) 30)
      ⟨true :: rest.marks, r :: rest.sleeps, rest.st, rest.budget_exhausted⟩
    | .fail => ⟨[false], [], st, false⟩

/-- Step 4, `BatchWorkflow.poll_batch_status` (lines 164-209): abort with no
request when `batch_id` is falsy; otherwise run the loop with
`max_polls = 60` and initial `poll_interval = 2`. -/
def poll_batch_status (resp : Nat → PollResponse) (st : WorkflowState) : PollResult :=
  if falsy st.batch_id then ⟨[], [], st, false⟩
  else pollLoop resp st 60 0 2

/-- Step 5, `BatchWorkflow.retrieve_output` (lines 211-226): skip with no
request when `output_file_id` is falsy; otherwise GET the content endpoint,
marking success exactly on HTTP 200. -/
def retrieve_output (st : WorkflowState) (http_status : Nat) : StepResult :=
  if falsy st.output_file_id then ⟨st, []⟩
  else if http_status = 200 then ⟨st, [true]⟩ else ⟨st, [false]⟩

/-- Step 6, `BatchWorkflow.retrieve_errors` (lines 228-243): skip with no
request when `error_file_id` is falsy; otherwise GET the content endpoint,
marking success exactly on HTTP 200. -/
def retrieve_errors (st : WorkflowState) (http_status : Nat) : StepResult :=
  if falsy st.error_file_id then ⟨st, []⟩
  else if http_status = 200 then ⟨st, [true]⟩ else ⟨st, [false]⟩

/-- The `poll_interval` value slept after attempt `k` of a run that starts
with interval `r`: each sleep is followed by `poll_interval =
min(poll_interval * 1.5, 30)` (line 206). -/
def iterCap (r : ℚ) : Nat → ℚ
  | 0 => r
  | k+1 => iterCap (min (r * (3/2)) 30) k

/-- The list of the first `k` sleep intervals of a run starting at `r`. -/
def intervalsFrom (r : ℚ) : Nat → List ℚ
  | 0 => []
  | k+1 => r :: intervalsFrom (min (r * (3/2)) 30) k

/-- Authentication phase of one simulated user in the shared-API-key
bootstrap (`BatchUser.on_start`, lines 258-320): not yet started; past the
`shared_api_key is None` check with its creation POST in flight; finished
with a bearer token installed (`Authorization: Bearer tok`, basic auth
cleared); or finished still on basic auth (creation failed or returned no
usable key). -/
inductive UserPhase where
  | start
  | creating
  | doneBearer (tok : String)
  | doneBasic
deriving DecidableEq, Repr

/-- Outcome of one API-key creation request (`_create_shared_api_key`):
a non-2xx HTTP response or parse error, or a 200/201 response whose body
carries `response_data.get('key')` (possibly `None`). -/
inductive KeyOutcome where
  | httpFail
  | ok (key : Option String)
deriving DecidableEq, Repr

/-- Process-wide state of the bootstrap: the class variable
`BatchUser.shared_api_key`, the phase of every simulated user, and how many
API-key creation requests have been issued so far. -/
structure SysState where
  sharedKey : Option String
  users : Nat → UserPhase
  created : Nat

/-- Interleaving events of the bootstrap.  `check u` is user `u` executing
the unguarded `if BatchUser.shared_api_key is None` test of line 272 (when
the key exists it installs the bearer header and finishes; when it does not,
it issues a creation request and blocks on the HTTP call, which yields the
greenlet).  `finish u r` is user `u`'s in-flight creation request completing
with outcome `r` (lines 303-320): on a 200/201 response the class variable
is overwritten with `data.get('key')` (line 306, before the truthiness
check), and the user ends with a bearer header exactly when that key is
truthy. -/
inductive KeyEvent where
  | check (u : Nat)
  | finish (u : Nat) (r : KeyOutcome)
deriving DecidableEq, Repr

/-- One interleaving step of the bootstrap; events that do not match the
user's current phase leave the state unchanged (they cannot occur). -/
def stepEvent (s : SysState) : KeyEvent → SysState
  | .check u =>
    match s.users u with
    | .start =>
      match s.sharedKey with
      | some k => { s with users := Function.update s.users u (.doneBearer k) }
      | none => { s with users := Function.update s.users u .creating,
                         created := s.created + 1 }
    | _ => s
  | .finish u r =>
    match s.users u with
    | .creating =>
      match r with
      | .httpFail => { s with users := Function.update s.users u .doneBasic }
      | .ok ko =>
        { s with sharedKey := ko,
                 users := Function.update s.users u
                   (match ko with
                    | some k => if k = "" then .doneBasic else .doneBearer k
                    | none => .doneBasic) }
    | _ => s

/-- Run a whole interleaving of bootstrap events. -/
def execTrace (s : SysState) : List KeyEvent → SysState
  | [] => s
  | e :: es => execTrace (stepEvent s e) es

/-- Fresh test run: no shared key yet, no creation request issued, every
simulated user still to run `on_start`. -/
def initRun : SysState := ⟨none, fun _ => .start, 0⟩

/-- Report of the run-end hook: the performance-assertion failure messages
it prints and the exit action it takes. -/
structure StopReport where
  failures : List String
  exit_code : Option Nat
deriving DecidableEq, Repr

/-- Threshold evaluation of the `on_test_stop` hook (lines 389-414): append
a message per exceeded threshold (p95 latency first, then error rate) and
take no exit action — the hook body contains no `raise` and no exit call
(the comment on line 410 records this deliberately), which is modelled by
`exit_code = none` on every input. -/
def on_test_stop_check (p95 p95_threshold error_rate error_rate_threshold : ℚ) :
    StopReport :=
  ⟨(if p95 > p95_threshold then ["P95 response time exceeds threshold"] else [])
      ++ (if error_rate > error_rate_threshold then ["Error rate exceeds threshold"] else []),
   none⟩

/-- Workflow state with all four identifiers unset, as `on_start` leaves it. -/
def stEmpty : WorkflowState := ⟨none, none, none, none⟩

/-- Workflow state after a successful upload. -/
def stWithFile : WorkflowState := ⟨some "file-abc", none, none, none⟩

/-- Workflow state after a successful upload and batch creation. -/
def stWithBatch : WorkflowState := ⟨some "file-abc", some "batch-1", none, none⟩

/-- Poll response reporting a non-terminal status. -/
def respCont : PollResponse := ⟨200, some ⟨some "in_progress", none, none⟩⟩

/-- Poll response reporting a terminal status with both file ids. -/
def respDone : PollResponse :=
  ⟨200, some ⟨some "completed", some "file-out-1", some "file-err-1"⟩⟩

/-- Server behaviour: one in-progress response, then completed. -/
def wRespTerm : Nat → PollResponse := fun i => if i = 0 then respCont else respDone

/-- Server behaviour: always in progress. -/
def wRespCont : Nat → PollResponse := fun _ => respCont

/-- Server behaviour: always an unrecognized status value. -/
def wRespWeird : Nat → PollResponse := fun _ => ⟨200, some ⟨some "paused", none, none⟩⟩

/-- Server behaviour: always HTTP 500 with an unparseable body. -/
def wRespErr : Nat → PollResponse := fun _ => ⟨500, none⟩

/-- Bootstrap state of a run whose first user has already created and stored
a key, with every other user still to start. -/
def runWithKey : SysState :=
  ⟨some "key-1", Function.update (fun _ => .start) 0 (.doneBearer "key-1"), 1⟩

/-! ### Helper lemmas about the polling loop -/

/-- Unfolding a run of the polling loop across a prefix of `k` attempts that
all classify as `cont`: the loop marks `k` successes, sleeps the first `k`
capped backoff intervals, and continues as a fresh loop with `k` less fuel,
attempt index advanced by `k`, and interval iterated `k` times. -/
theorem pollLoop_cont_prefix (resp : Nat → PollResponse) (st : WorkflowState) :
    ∀ (k fuel i : Nat) (r : ℚ), k ≤ fuel →
    (∀ j, j < k → classify (resp (i + j)) = .cont) →
    pollLoop resp st fuel i r =
      ⟨List.replicate k true ++ (pollLoop resp st (fuel - k) (i + k) (iterCap r k)).marks,
       intervalsFrom r k ++ (pollLoop resp st (fuel - k) (i + k) (iterCap r k)).sleeps,
       (pollLoop resp st (fuel - k) (i + k) (iterCap r k)).st,
       (pollLoop resp st (fuel - k) (i + k) (iterCap r k)).budget_exhausted⟩ := by
  intro k
  induction k with
  | zero =>
    intro fuel i r _ _
    simp [iterCap, intervalsFrom]
  | succ k ih =>
    intro fuel i r hk hpre
    cases fuel with
    | zero => omega
    | succ f =>
      have hc : classify (resp i) = .cont := by
        have h0 := hpre 0 (by omega)
        simpa using h0
      have hpre' : ∀ j, j < k → classify (resp (i + 1 + j)) = .cont := by
        intro j hj
        have h1 := hpre (j + 1) (by omega)
        have e : i + (j + 1) = i + 1 + j := by omega
        rwa [e] at h1
      have ih' := ih f (i + 1) (min (r * (3/2)) 30) (by omega) hpre'
      have e1 : i + 1 + k = i + (k + 1) := by omega
      have e2 : f - k = f + 1 - (k + 1) := by omega
      rw [e1, e2] at ih'
      simp only [pollLoop, hc, ih', iterCap]
      simp [List.replicate_succ, intervalsFrom]

/-- The polling loop issues at most `fuel` requests. -/
theorem pollLoop_marks_le (resp : Nat → PollResponse) (st : WorkflowState) :
    ∀ (fuel i : Nat) (r : ℚ), (pollLoop resp st fuel i r).marks.length ≤ fuel := by
  intro fuel
  induction fuel with
  | zero => intro i r; simp [pollLoop]
  | succ f ih =>
    intro i r
    cases hc : classify (resp i) with
    | term b => simp [pollLoop, hc]
    | cont =>
      have := ih (i + 1) (min (r * (3/2)) 30)
      simp only [pollLoop, hc]
      simpa using Nat.succ_le_succ this
    | fail => simp [pollLoop, hc]

/-- With fuel remaining, the polling loop issues at least one request. -/
theorem pollLoop_marks_pos (resp : Nat → PollResponse) (st : WorkflowState)
    (fuel i : Nat) (r : ℚ) (h : 1 ≤ fuel) :
    1 ≤ (pollLoop resp st fuel i r).marks.length := by
  cases fuel with
  | zero => omega
  | succ f =>
    cases hc : classify (resp i) with
    | term b => simp [pollLoop, hc]
    | cont => simp [pollLoop, hc]
    | fail => simp [pollLoop, hc]

/-- If no response the loop actually processes classifies as terminal, the
final workflow state is the initial one. -/
theorem pollLoop_no_term_frame (resp : Nat → PollResponse) (st : WorkflowState) :
    ∀ (fuel i : Nat) (r : ℚ),
    (∀ j, j < (pollLoop resp st fuel i r).marks.length →
      ∀ b, classify (resp (i + j)) ≠ .term b) →
    (pollLoop resp st fuel i r).st = st := by
  intro fuel
  induction fuel with
  | zero => intro i r _; simp [pollLoop]
  | succ f ih =>
    intro i r h
    cases hc : classify (resp i) with
    | term b =>
      exfalso
      refine h 0 ?_ b ?_
      · simp [pollLoop, hc]
      · simpa using hc
    | cont =>
      have h' : ∀ j, j < (pollLoop resp st f (i + 1) (min (r * (3/2)) 30)).marks.length →
          ∀ b, classify (resp (i + 1 + j)) ≠ .term b := by
        intro j hj b
        have hj' : j + 1 < (pollLoop resp st (f + 1) i r).marks.length := by
          simp only [pollLoop, hc]
          simpa using Nat.succ_lt_succ hj
        have := h (j + 1) hj' b
        have e : i + (j + 1) = i + 1 + j := by omega
        rwa [e] at this
      have := ih (i + 1) (min (r * (3/2)) 30) h'
      simp only [pollLoop, hc]
      simpa using this
    | fail => simp [pollLoop, hc]

/-- Closed form of the capped backoff iteration: starting from a capped
value `min a 30` with `2 ≤ a`, the value slept after attempt `k` is
`min (a * 1.5^k) 30`. -/
theorem iterCap_min (k : Nat) : ∀ a : ℚ, 2 ≤ a →
    iterCap (min a 30) k = min (a * (3/2)^k) 30 := by
  induction k with
  | zero => intro a _; simp [iterCap]
  | succ k ih =>
    intro a ha
    have hstep : min (min a 30 * (3/2)) 30 = min (a * (3/2)) 30 := by
      rcases le_total a 30 with h | h
      · rw [min_eq_left h]
      · rw [min_eq_right h,
            min_eq_right (by norm_num : (30:ℚ) ≤ 30 * (3/2)),
            min_eq_right (by linarith : (30:ℚ) ≤ a * (3/2))]
    have ih' := ih (a * (3/2)) (by linarith)
    calc iterCap (min a 30) (k + 1)
        = iterCap (min (min a 30 * (3/2)) 30) k := by simp [iterCap]
      _ = iterCap (min (a * (3/2)) 30) k := by rw [hstep]
      _ = min (a * (3/2) * (3/2)^k) 30 := ih'
      _ = min (a * (3/2)^(k+1)) 30 := by rw [pow_succ]; ring_nf

/-- The sleep after attempt `k` of a loop starting at interval 2 is
`min (2 * 1.5^k) 30`. -/
theorem iterCap_two (k : Nat) : iterCap 2 k = min (2 * (3/2:ℚ)^k) 30 := by
  have h := iterCap_min k 2 le_rfl
  rwa [show min (2:ℚ) 30 = 2 by norm_num] at h

/-- The interval list of `k` attempts has length `k`. -/
theorem intervalsFrom_length (k : Nat) : ∀ r : ℚ, (intervalsFrom r k).length = k := by
  induction k with
  | zero => intro r; simp [intervalsFrom]
  | succ k ih => intro r; simp [intervalsFrom, ih]

/-- The `j`-th entry of the interval list is the `j`-fold capped iterate. -/
theorem intervalsFrom_get (k : Nat) : ∀ (r : ℚ) (j : Nat), j < k →
    (intervalsFrom r k).get? j = some (iterCap r j) := by
  induction k with
  | zero => intro r j hj; omega
  | succ k ih =>
    intro r j hj
    cases j with
    | zero => simp [intervalsFrom, iterCap]
    | succ j =>
      have := ih (min (r * (3/2)) 30) j (by omega)
      simpa [intervalsFrom, iterCap] using this

/-! ### Claim theorems -/

/-- Claim C1: for every poll response whose status is one of completed,
failed, cancelled, or expired, `poll_batch_status` stops polling immediately
— after `k` non-terminal responses and a terminal response at attempt `k`,
exactly `k + 1` status requests are issued (all marked successes) and no
sleep follows the terminal response — and it sets `output_file_id` and
`error_file_id` to the values carried in that response before returning. -/
theorem poll_terminal_captures (resp : Nat → PollResponse) (st : WorkflowState)
    (k : Nat) (b : PollBody) (s : String)
    (hb : falsy st.batch_id = false) (hk : k < 60)
    (hpre : ∀ j, j < k → classify (resp j) = .cont)
    (h200 : (resp k).http_status = 200) (hbody : (resp k).body = some b)
    (hstat : b.status = some s) (hs : s ∈ terminalStatuses) :
    (poll_batch_status resp st).marks = List.replicate (k + 1) true ∧
    (poll_batch_status resp st).sleeps.length = k ∧
    (poll_batch_status resp st).st.output_file_id = b.output_file_id ∧
    (poll_batch_status resp st).st.error_file_id = b.error_file_id := by
  have hterm : classify (resp k) = .term b := by
    simp [classify, h200, hbody, hstat, hs]
  have hP : poll_batch_status resp st = pollLoop resp st 60 0 2 := by
    simp [poll_batch_status, hb]
  have hpre0 : ∀ j, j < k → classify (resp (0 + j)) = .cont := by
    intro j hj; simpa using hpre j hj
  have hmain := pollLoop_cont_prefix resp st k 60 0 2 (by omega) hpre0
  rw [Nat.zero_add] at hmain
  have hrest : pollLoop resp st (60 - k) k (iterCap 2 k) =
      ⟨[true], [], applyTerminal st b, false⟩ := by
    rw [show (60:Nat) - k = (59 - k) + 1 by omega]
    simp [pollLoop, hterm]
  rw [hrest] at hmain
  rw [hP, hmain]
  refine ⟨?_, ?_, ?_, ?_⟩
  · show List.replicate k true ++ [true] = List.replicate (k + 1) true
    simp [List.replicate_succ']
  · show (intervalsFrom 2 k ++ []).length = k
    simp [intervalsFrom_length]
  · rfl
  · rfl

/-- Witness for C1: one in-progress response then a completed response with
both file ids; polling stops at the second request and captures the ids. -/
theorem poll_terminal_captures_witness :
    (poll_batch_status wRespTerm stWithBatch).marks = List.replicate 2 true ∧
    (poll_batch_status wRespTerm stWithBatch).sleeps.length = 1 ∧
    (poll_batch_status wRespTerm stWithBatch).st.output_file_id = some "file-out-1" ∧
    (poll_batch_status wRespTerm stWithBatch).st.error_file_id = some "file-err-1" :=
  poll_terminal_captures wRespTerm stWithBatch 1
    ⟨some "completed", some "file-out-1", some "file-err-1"⟩ "completed"
    rfl (by decide) (by decide) rfl rfl rfl (by decide)

/-- Claim C3: while attempts keep returning non-terminal statuses
(validating, in_progress, finalizing), polling continues — the attempt after
attempt `k` is issued whenever budget remains — and the sleep interval after
attempt `k` equals `min (2 * 1.5^k) 30` seconds. -/
theorem poll_backoff (resp : Nat → PollResponse) (st : WorkflowState) (k : Nat)
    (hb : falsy st.batch_id = false) (hk : k < 60)
    (hpre : ∀ j, j ≤ k → classify (resp j) = .cont) :
    (poll_batch_status resp st).sleeps.get? k = some (min (2 * (3/2:ℚ)^k) 30) ∧
    (k + 1 < 60 → k + 2 ≤ (poll_batch_status resp st).marks.length) := by
  have hP : poll_batch_status resp st = pollLoop resp st 60 0 2 := by
    simp [poll_batch_status, hb]
  have hpre0 : ∀ j, j < k + 1 → classify (resp (0 + j)) = .cont := by
    intro j hj; simpa using hpre j (by omega)
  have hmain := pollLoop_cont_prefix resp st (k + 1) 60 0 2 (by omega) hpre0
  rw [Nat.zero_add] at hmain
  constructor
  · rw [hP, hmain]
    show (intervalsFrom 2 (k + 1) ++ _).get? k = _
    rw [List.get?_append (by simp [intervalsFrom_length])]
    rw [intervalsFrom_get (k + 1) 2 k (by omega), iterCap_two]
  · intro hk1
    rw [hP, hmain]
    show k + 2 ≤ (List.replicate (k + 1) true ++
      (pollLoop resp st (60 - (k + 1)) (k + 1) (iterCap 2 (k + 1))).marks).length
    have hpos := pollLoop_marks_pos resp st (60 - (k + 1)) (k + 1)
      (iterCap 2 (k + 1)) (by omega)
    simp only [List.length_append, List.length_replicate]
    omega

/-- Witness for C3: against an always-in-progress server, the sleep after
attempt 0 is `min (2 * 1.5^0) 30 = 2` and a second request is issued. -/
theorem poll_backoff_witness :
    (poll_batch_status wRespCont stWithBatch).sleeps.get? 0 =
      some (min (2 * (3/2:ℚ)^0) 30) ∧
    (0 + 1 < 60 → 0 + 2 ≤ (poll_batch_status wRespCont stWithBatch).marks.length) :=
  poll_backoff wRespCont stWithBatch 0 rfl (by decide) (by decide)

/-- Claim C6: a 200 poll response whose status value is recognized neither
as terminal nor as non-terminal records a failure mark and halts polling
immediately: after `k` non-terminal responses, the unrecognized response at
attempt `k` is the last request and is marked as the only failure, with no
sleep after it. -/
theorem poll_unknown_status_halts (resp : Nat → PollResponse) (st : WorkflowState)
    (k : Nat) (b : PollBody) (s : String)
    (hb : falsy st.batch_id = false) (hk : k < 60)
    (hpre : ∀ j, j < k → classify (resp j) = .cont)
    (h200 : (resp k).http_status = 200) (hbody : (resp k).body = some b)
    (hstat : b.status = some s)
    (hterm : s ∉ terminalStatuses) (hnon : s ∉ nonTerminalStatuses) :
    (poll_batch_status resp st).marks = List.replicate k true ++ [false] ∧
    (poll_batch_status resp st).sleeps.length = k := by
  have hfail : classify (resp k) = .fail := by
    simp [classify, h200, hbody, hstat, hterm, hnon]
  have hP : poll_batch_status resp st = pollLoop resp st 60 0 2 := by
    simp [poll_batch_status, hb]
  have hpre0 : ∀ j, j < k → classify (resp (0 + j)) = .cont := by
    intro j hj; simpa using hpre j hj
  have hmain := pollLoop_cont_prefix resp st k 60 0 2 (by omega) hpre0
  rw [Nat.zero_add] at hmain
  have hrest : pollLoop resp st (60 - k) k (iterCap 2 k) = ⟨[false], [], st, false⟩ := by
    rw [show (60:Nat) - k = (59 - k) + 1 by omega]
    simp [pollLoop, hfail]
  rw [hrest] at hmain
  rw [hP, hmain]
  exact ⟨rfl, by show (intervalsFrom 2 k ++ []).length = k; simp [intervalsFrom_length]⟩

/-- Witness for C6: a server that immediately reports the unrecognized
status value "paused"; the first request is marked failed and is the last. -/
theorem poll_unknown_status_halts_witness :
    (poll_batch_status wRespWeird stWithBatch).marks = List.replicate 0 true ++ [false] ∧
    (poll_batch_status wRespWeird stWithBatch).sleeps.length = 0 :=
  poll_unknown_status_halts wRespWeird stWithBatch 0 ⟨some "paused", none, none⟩ "paused"
    rfl (by decide) (by decide) rfl rfl rfl (by decide) (by decide)

/-- Claim C8: the polling step issues at most `max_polls = 60` status
requests per workflow iteration, and when all 60 attempts return
non-terminal statuses the step ends on the print-only path with every
request marked a success (so no failure is recorded). -/
theorem poll_budget (resp : Nat → PollResponse) (st : WorkflowState) :
    (poll_batch_status resp st).marks.length ≤ 60 ∧
    ((falsy st.batch_id = false ∧ ∀ i, i < 60 → classify (resp i) = .cont) →
      (poll_batch_status resp st).marks = List.replicate 60 true ∧
      (poll_batch_status resp st).budget_exhausted = true) := by
  constructor
  · by_cases hb : falsy st.batch_id = true
    · simp [poll_batch_status, hb]
    · have hb' : falsy st.batch_id = false := by simpa using hb
      have hP : poll_batch_status resp st = pollLoop resp st 60 0 2 := by
        simp [poll_batch_status, hb']
      rw [hP]
      exact pollLoop_marks_le resp st 60 0 2
  · rintro ⟨hb, hcont⟩
    have hP : poll_batch_status resp st = pollLoop resp st 60 0 2 := by
      simp [poll_batch_status, hb]
    have hpre0 : ∀ j, j < 60 → classify (resp (0 + j)) = .cont := by
      intro j hj; simpa using hcont j hj
    have hmain := pollLoop_cont_prefix resp st 60 60 0 2 le_rfl hpre0
    rw [Nat.zero_add] at hmain
    have hrest : pollLoop resp st (60 - 60) 60 (iterCap 2 60) = ⟨[], [], st, true⟩ := by
      norm_num [pollLoop]
    rw [hrest] at hmain
    rw [hP, hmain]
    exact ⟨by show List.replicate 60 true ++ [] = _; simp, rfl⟩

/-- Witness for C8: against an always-in-progress server with a batch id
set, all 60 requests are marked successes and the budget path is taken. -/
theorem poll_budget_witness :
    (poll_batch_status wRespCont stWithBatch).marks = List.replicate 60 true ∧
    (poll_batch_status wRespCont stWithBatch).budget_exhausted = true :=
  (poll_budget wRespCont stWithBatch).2 ⟨rfl, by decide⟩

/-- Claim C10: on every poll run in which no processed response is terminal
(non-200 statuses, JSON parse failures, unrecognized statuses, or budget
exhaustion), `poll_batch_status` returns with `output_file_id` and
`error_file_id` unchanged from their values before the step began. -/
theorem poll_frame (resp : Nat → PollResponse) (st : WorkflowState)
    (h : ∀ j, j < (poll_batch_status resp st).marks.length →
      ∀ b, classify (resp j) ≠ .term b) :
    (poll_batch_status resp st).st.output_file_id = st.output_file_id ∧
    (poll_batch_status resp st).st.error_file_id = st.error_file_id := by
  by_cases hb : falsy st.batch_id = true
  · simp [poll_batch_status, hb]
  · have hb' : falsy st.batch_id = false := by simpa using hb
    have hP : poll_batch_status resp st = pollLoop resp st 60 0 2 := by
      simp [poll_batch_status, hb']
    rw [hP] at h ⊢
    have hfr := pollLoop_no_term_frame resp st 60 0 2 (by
      intro j hj b
      simpa using h j hj b)
    rw [hfr]
    exact ⟨rfl, rfl⟩

/-- Witness for C10: a server that always answers HTTP 500; the single
failed poll leaves both file ids untouched. -/
theorem poll_frame_witness :
    (poll_batch_status wRespErr stWithBatch).st.output_file_id =
      stWithBatch.output_file_id ∧
    (poll_batch_status wRespErr stWithBatch).st.error_file_id =
      stWithBatch.error_file_id :=
  poll_frame wRespErr stWithBatch (fun j hj b hb => by simp [wRespErr, classify] at hb)

/-- Claim C5: an upload response with status 201 and body carrying id
"file-abc" sets `file_id` to "file-abc" and marks the request a success;
any response with status 500 marks the request a failure and leaves the
whole state, in particular `file_id`, unchanged. -/
theorem upload_file_spec :
    (upload_file stEmpty ⟨201, some ⟨some "file-abc"⟩⟩).st.file_id = some "file-abc" ∧
    (upload_file stEmpty ⟨201, some ⟨some "file-abc"⟩⟩).marks = [true] ∧
    ∀ (st : WorkflowState) (b : Option IdBody),
      upload_file st ⟨500, b⟩ = ⟨st, [false]⟩ := by
  refine ⟨by decide, by decide, ?_⟩
  intro st b
  simp [upload_file]

/-- Counterexample to claim C4: a create-batch response with success status
200 and a parseable JSON body that lacks the `id` field is not marked
failed — it is marked a success while `batch_id` is left unset. -/
theorem create_batch_missing_id_marked_success :
    (create_batch stWithFile ⟨200, some ⟨none⟩⟩).marks ≠ [false] ∧
    (create_batch stWithFile ⟨200, some ⟨none⟩⟩).marks = [true] ∧
    (create_batch stWithFile ⟨200, some ⟨none⟩⟩).st.batch_id = none := by
  decide

/-- Claim C4 as amended: for every create-batch response with success HTTP
status whose JSON body parses, the step is marked a success and `batch_id`
is assigned the optional identifier from the body — so when the body lacks
the field, the step is a success with `batch_id` left unset (the gap
surfaces only as the subsequent poll step aborting); only JSON decode
errors and non-success statuses mark the step failed. -/
theorem create_batch_success_sets_optional_id (st : WorkflowState)
    (resp : HttpResponse IdBody) (b : IdBody)
    (hf : falsy st.file_id = false)
    (hs : resp.http_status ∈ [200, 201]) (hbody : resp.body = some b) :
    create_batch st resp = ⟨{ st with batch_id := b.id }, [true]⟩ := by
  simp [create_batch, hf, hs, hbody]

/-- Witness for the amended C4: a 201 response carrying id "batch-1" marks
success and stores the id. -/
theorem create_batch_success_sets_optional_id_witness :
    create_batch stWithFile ⟨201, some ⟨some "batch-1"⟩⟩ =
      ⟨{ stWithFile with batch_id := some "batch-1" }, [true]⟩ :=
  create_batch_success_sets_optional_id stWithFile ⟨201, some ⟨some "batch-1"⟩⟩
    ⟨some "batch-1"⟩ rfl (by decide) rfl

/-- Claim C7: every step whose own prerequisite identifier is unset issues
zero HTTP requests and ends without recording any mark (hence no failure),
whatever the other state fields hold: verify-upload and create-batch when
`file_id` is unset, polling when `batch_id` is unset, retrieve-output when
`output_file_id` is unset, and retrieve-errors when `error_file_id` is
unset.  The state is also left unchanged in each case. -/
theorem step_prereq_guards (st : WorkflowState) (coin : Bool)
    (hs1 hs2 hs3 : Nat) (rc : HttpResponse IdBody) (resp : Nat → PollResponse) :
    (st.file_id = none →
      verify_upload st coin hs1 = ⟨st, []⟩ ∧ create_batch st rc = ⟨st, []⟩) ∧
    (st.batch_id = none → poll_batch_status resp st = ⟨[], [], st, false⟩) ∧
    (st.output_file_id = none → retrieve_output st hs2 = ⟨st, []⟩) ∧
    (st.error_file_id = none → retrieve_errors st hs3 = ⟨st, []⟩) := by
  refine ⟨fun hf => ⟨?_, ?_⟩, fun hbb => ?_, fun ho => ?_, fun he => ?_⟩
  · simp [verify_upload, hf, falsy]
  · simp [create_batch, hf, falsy]
  · simp [poll_batch_status, hbb, falsy]
  · simp [retrieve_output, ho, falsy]
  · simp [retrieve_errors, he, falsy]

/-- Workflow state after a batch that ended `failed`: an error file id was
captured but no output file id — the reachable state in which
retrieve-output must skip while retrieve-errors proceeds. -/
def stNoOutput : WorkflowState :=
  ⟨some "file-abc", some "batch-1", none, some "file-err-1"⟩

/-- Workflow state after a clean completion: an output file id was captured
but no error file id, so retrieve-errors must skip. -/
def stNoErrors : WorkflowState :=
  ⟨some "file-abc", some "batch-1", some "file-out-1", none⟩

/-- Witness for C7: on the freshly initialised state the first three
guarded steps are no-ops issuing zero requests, retrieve-output skips on a
state where every other identifier is set (after a failed batch that left
only an error file), and retrieve-errors skips on a state where only the
error file id is missing. -/
theorem step_prereq_guards_witness :
    (verify_upload stEmpty true 200 = ⟨stEmpty, []⟩ ∧
      create_batch stEmpty ⟨200, some ⟨some "batch-1"⟩⟩ = ⟨stEmpty, []⟩) ∧
    poll_batch_status wRespCont stEmpty = ⟨[], [], stEmpty, false⟩ ∧
    retrieve_output stNoOutput 200 = ⟨stNoOutput, []⟩ ∧
    retrieve_errors stNoErrors 200 = ⟨stNoErrors, []⟩ :=
  ⟨(step_prereq_guards stEmpty true 200 200 200
      ⟨200, some ⟨some "batch-1"⟩⟩ wRespCont).1 rfl,
   (step_prereq_guards stEmpty true 200 200 200
      ⟨200, some ⟨some "batch-1"⟩⟩ wRespCont).2.1 rfl,
   (step_prereq_guards stNoOutput true 200 200 200
      ⟨200, some ⟨some "batch-1"⟩⟩ wRespCont).2.2.1 rfl,
   (step_prereq_guards stNoErrors true 200 200 200
      ⟨200, some ⟨some "batch-1"⟩⟩ wRespCont).2.2.2 rfl⟩

/-- Counterexample to claim C2: the `shared_api_key is None` check is not
guarded by any lock, so two users whose checks interleave before either
creation completes each issue an API-key creation request — the trace
`[check 0, check 1]` from a fresh run issues two creation requests, not at
most one. -/
theorem shared_key_double_create :
    ¬ ((execTrace initRun [KeyEvent.check 0, KeyEvent.check 1]).created ≤ 1) := by
  decide

/-- Claim C2 as amended: once the shared key holds some value `k` and no
user's creation request is still in flight (as when the first user's
creation completes before any other user starts), no further creation
request is ever issued, the stored key remains `k`, and every user that
runs thereafter finishes with the bearer token `k` installed; only
overlapping first checks can issue additional creation requests. -/
theorem shared_key_stable (tr : List KeyEvent) (k : String) : ∀ s : SysState,
    s.sharedKey = some k → (∀ u, s.users u ≠ .creating) →
    (execTrace s tr).created = s.created ∧
    (execTrace s tr).sharedKey = some k ∧
    ∀ u, (s.users u = .start ∨ s.users u = .doneBearer k) →
      ((execTrace s tr).users u = .start ∨ (execTrace s tr).users u = .doneBearer k) := by
  induction tr with
  | nil => intro s hkey hnc; exact ⟨rfl, hkey, fun u hu => hu⟩
  | cons e es ih =>
    intro s hkey hnc
    have hstep : (stepEvent s e).created = s.created ∧
        (stepEvent s e).sharedKey = some k ∧
        (∀ u, (stepEvent s e).users u ≠ .creating) ∧
        ∀ u, (s.users u = .start ∨ s.users u = .doneBearer k) →
          ((stepEvent s e).users u = .start ∨ (stepEvent s e).users u = .doneBearer k) := by
      cases e with
      | check u =>
        cases h : s.users u with
        | start =>
          refine ⟨by simp [stepEvent, h, hkey], by simp [stepEvent, h, hkey], ?_, ?_⟩
          · intro v
            by_cases hv : v = u
            · subst hv; simp [stepEvent, h, hkey, Function.update_same]
            · simp [stepEvent, h, hkey, Function.update_noteq hv]
              exact hnc v
          · intro v hv
            by_cases hvu : v = u
            · subst hvu
              right
              simp [stepEvent, h, hkey, Function.update_same]
            · simp only [stepEvent, h, hkey]
              rw [Function.update_noteq hvu]
              exact hv
        | creating => exact absurd h (hnc u)
        | doneBearer tok => exact ⟨by simp [stepEvent, h], by simp [stepEvent, h, hkey],
            fun v => by simp [stepEvent, h]; exact hnc v, fun v hv => by simpa [stepEvent, h] using hv⟩
        | doneBasic => exact ⟨by simp [stepEvent, h], by simp [stepEvent, h, hkey],
            fun v => by simp [stepEvent, h]; exact hnc v, fun v hv => by simpa [stepEvent, h] using hv⟩
      | finish u r =>
        cases h : s.users u with
        | start => exact ⟨by simp [stepEvent, h], by simp [stepEvent, h, hkey],
            fun v => by simp [stepEvent, h]; exact hnc v, fun v hv => by simpa [stepEvent, h] using hv⟩
        | creating => exact absurd h (hnc u)
        | doneBearer tok => exact ⟨by simp [stepEvent, h], by simp [stepEvent, h, hkey],
            fun v => by simp [stepEvent, h]; exact hnc v, fun v hv => by simpa [stepEvent, h] using hv⟩
        | doneBasic => exact ⟨by simp [stepEvent, h], by simp [stepEvent, h, hkey],
            fun v => by simp [stepEvent, h]; exact hnc v, fun v hv => by simpa [stepEvent, h] using hv⟩
    obtain ⟨h1, h2, h3, h4⟩ := hstep
    obtain ⟨g1, g2, g3⟩ := ih (stepEvent s e) h2 h3
    refine ⟨?_, ?_, ?_⟩
    · show (execTrace (stepEvent s e) es).created = s.created
      rw [g1, h1]
    · exact g2
    · intro u hu
      exact g3 u (h4 u hu)

/-- Witness for the amended C2: after the first user has stored key
"key-1", a later user's check issues no creation request, leaves the key
unchanged, and every pending user ends bearing "key-1" or has not run. -/
theorem shared_key_stable_witness :
    (execTrace runWithKey [KeyEvent.check 1]).created = runWithKey.created ∧
    (execTrace runWithKey [KeyEvent.check 1]).sharedKey = some "key-1" ∧
    ∀ u, (runWithKey.users u = .start ∨ runWithKey.users u = .doneBearer "key-1") →
      ((execTrace runWithKey [KeyEvent.check 1]).users u = .start ∨
        (execTrace runWithKey [KeyEvent.check 1]).users u = .doneBearer "key-1") :=
  shared_key_stable [KeyEvent.check 1] "key-1" runWithKey rfl
    (by
      intro u
      by_cases hu : u = 0
      · subst hu; simp [runWithKey, Function.update_same]
      · simp [runWithKey, Function.update_noteq hu])

/-- Claim C9: whenever the p95 latency threshold or the error-rate
threshold is exceeded, the run-end hook reports at least one violation
message yet takes no exit action (its exit action is `none` by
construction, mirroring the absence of any `raise` or exit call), so the
process exit status is unchanged. -/
theorem threshold_violation_reported_no_exit (p95 p95_t er er_t : ℚ)
    (h : p95 > p95_t ∨ er > er_t) :
    (on_test_stop_check p95 p95_t er er_t).failures ≠ [] ∧
    (on_test_stop_check p95 p95_t er er_t).exit_code = none := by
  refine ⟨?_, rfl⟩
  rcases h with h | h
  · simp [on_test_stop_check, h]
  · by_cases h2 : p95 > p95_t <;> simp [on_test_stop_check, h, h2]

/-- Witness for C9: p95 of 1500ms against a 1000ms threshold is reported
and the exit action is still `none`. -/
theorem threshold_violation_reported_no_exit_witness :
    (on_test_stop_check 1500 1000 0 (1/100)).failures ≠ [] ∧
    (on_test_stop_check 1500 1000 0 (1/100)).exit_code = none :=
  threshold_violation_reported_no_exit 1500 1000 0 (1/100) (Or.inl (by norm_num))

end BatchLoadTest
